import Mathlib

/-!
Frame delivery and bus-message dispatch of ThesisGstreamer.

A shallow embedding of the two C programs of the repository:

* `src/applciation/gstreamer_controller.c` (namespace `Controller`): the
  camera-preview program, whose `pull_sample` callback turns every sample of
  the appsink into a densely packed RGB frame on standard output;
* `src/videoInput.c` (namespace `VideoInput`): the RTSP playback program,
  whose `cb_message` drives the playback pipeline from bus messages.

Modelling conventions.

* `guint` values are natural numbers reduced modulo `2 ^ 32` after every
  arithmetic operation of the source; `gint` fields that GStreamer guarantees
  to be non-negative (width, height, stride) are natural numbers.
* Mapped memory is a function from byte offsets to bytes together with the
  number of mapped bytes; a pointer into it is an offset.
* Calls into GStreamer/GLib whose outcome the program branches on are inputs
  of the model (the fields of `GstSample`, of `Startup`); calls made for
  their effect are recorded, in program order, in a list of `Call`s or in the
  request log of a `GstElement`.
* `gst_element_set_state` is taken to succeed and to reach the requested
  state at once, unless its return value is an input of the model.
* `write` is taken to transfer all the bytes it is given.
* A `memcpy` that would store outside the block returned by `g_malloc` ends
  the run of `pull_sample`: the C program has no defined behaviour from there
  on (it crashes when the block is NULL), so `pull_sample` then has no return
  value and none of the later calls is recorded. A plane that
  `gst_video_frame_map` mapped holds every row that is read.
* A state change of an element is made one step at a time along NULL, READY,
  PAUSED, PLAYING, as GStreamer does it (GST_STATE_GET_NEXT); the steps are
  recorded in the `transitions` of the `GstElement`.
* Text printed for diagnostics is not modelled.
-/

/-! ## Shared GStreamer vocabulary -/

/-- The type guint8. -/
abbrev Byte := Fin 256

/-- Number of values of a guint (32 bits). -/
def GUINT : Nat := 2 ^ 32

/-- The enum GstState. -/
inductive GstState
  | GST_STATE_VOID_PENDING
  | GST_STATE_NULL
  | GST_STATE_READY
  | GST_STATE_PAUSED
  | GST_STATE_PLAYING
  deriving DecidableEq, Repr

/-- The enum GstStateChangeReturn. -/
inductive GstStateChangeReturn
  | GST_STATE_CHANGE_FAILURE
  | GST_STATE_CHANGE_SUCCESS
  | GST_STATE_CHANGE_ASYNC
  | GST_STATE_CHANGE_NO_PREROLL
  deriving DecidableEq, Repr

/-- The two values of GstFlowReturn that `pull_sample` returns. -/
inductive GstFlowReturn
  | GST_FLOW_OK
  | GST_FLOW_ERROR
  deriving DecidableEq, Repr

/-- The value of a GstState in the enum. -/
def GstState.value : GstState → Nat
  | GST_STATE_VOID_PENDING => 0
  | GST_STATE_NULL => 1
  | GST_STATE_READY => 2
  | GST_STATE_PAUSED => 3
  | GST_STATE_PLAYING => 4

/-- The GstState of a value of the enum. -/
def GstState.ofValue : Nat → GstState
  | 1 => GST_STATE_NULL
  | 2 => GST_STATE_READY
  | 3 => GST_STATE_PAUSED
  | 4 => GST_STATE_PLAYING
  | _ => GST_STATE_VOID_PENDING

/-- The macro GST_STATE_GET_NEXT (cur, pending) of GStreamer: the state one
step from `cur` towards `pending`. -/
def GST_STATE_GET_NEXT (cur pending : GstState) : GstState :=
  if cur.value < pending.value then GstState.ofValue (cur.value + 1)
  else if pending.value < cur.value then GstState.ofValue (cur.value - 1)
  else cur

/-- The steps (from, to) that an element in state `cur` makes to reach
`target`, in order; `fuel` bounds their number and 4 is always enough. -/
def state_steps : Nat → GstState → GstState → List (GstState × GstState)
  | 0, _, _ => []
  | fuel + 1, cur, target =>
    if cur = target then []
    else (cur, GST_STATE_GET_NEXT cur target) ::
      state_steps fuel (GST_STATE_GET_NEXT cur target) target

/-- A pipeline element as the programs see it: its state, the states asked
for through `gst_element_set_state` (oldest first), the single steps
(from, to) it has made between states (oldest first) and the number of
`gst_object_unref` calls made on it. -/
structure GstElement where
  state : GstState
  requests : List GstState
  transitions : List (GstState × GstState)
  unrefs : Nat
  deriving DecidableEq, Repr

/-- A pipeline as `gst_parse_launch` returns it: in the NULL state. -/
def GstElement.launched : GstElement :=
  { state := GstState.GST_STATE_NULL, requests := [], transitions := [], unrefs := 0 }

/-- The call gst_element_set_state (element, state): the element goes to
`s` through the states in between. -/
def gst_element_set_state (e : GstElement) (s : GstState) : GstElement :=
  { e with
    state := s
    requests := e.requests ++ [s]
    transitions := e.transitions ++ state_steps 4 e.state s }

/-- The call gst_element_get_state (element, &state, NULL, 0). -/
def gst_element_get_state (e : GstElement) : GstState := e.state

/-- The call gst_object_unref (element). -/
def gst_object_unref (e : GstElement) : GstElement :=
  { e with unrefs := e.unrefs + 1 }

/-- A GMainLoop: whether it is running, and the number of
`g_main_loop_quit` calls it has received. -/
structure GMainLoop where
  is_running : Bool
  quits : Nat
  deriving DecidableEq, Repr

/-- The call g_main_loop_quit (loop). -/
def g_main_loop_quit (l : GMainLoop) : GMainLoop :=
  { is_running := false, quits := l.quits + 1 }

/-- The call gst_element_set_state (element, state) when its return value
`ret` is an input: on GST_STATE_CHANGE_FAILURE the state is not reached. -/
def gst_element_set_state_ret (e : GstElement) (s : GstState)
    (ret : GstStateChangeReturn) : GstElement :=
  if ret = GstStateChangeReturn.GST_STATE_CHANGE_FAILURE then
    { e with requests := e.requests ++ [s] }
  else gst_element_set_state e s

/-- A GMainLoop starts idle, as `g_main_loop_new` returns it. -/
def g_main_loop_new : GMainLoop := { is_running := false, quits := 0 }

/-- The structure of an application message: its name and the two fields
that `cb_message` asks for, `none` when the field is missing or not of the
type asked for (G_TYPE_STRING for "gesture_name", G_TYPE_INT for "action"). -/
structure GstStructure where
  name : String
  gesture_name : Option String
  action : Option Int
  deriving DecidableEq, Repr

/-- The call gst_structure_get (s, "gesture_name", G_TYPE_STRING, &gesture_name,
"action", G_TYPE_INT, &action_id, NULL), as the value it leaves in
`action_id`: the fields are fetched in order and the call stops at the first
one it cannot fetch, leaving the later variables as they were. -/
def gst_structure_get (s : GstStructure) (action_id : Int) : Int :=
  match s.gesture_name with
  | none => action_id
  | some _ =>
    match s.action with
    | none => action_id
    | some a => a

/-- A bus message, by GST_MESSAGE_TYPE, with the payload the programs parse. -/
inductive GstMessage
  | GST_MESSAGE_ERROR
  | GST_MESSAGE_EOS
  | GST_MESSAGE_BUFFERING (percent : Int)
  | GST_MESSAGE_CLOCK_LOST
  | GST_MESSAGE_APPLICATION (s : GstStructure)
  | GST_MESSAGE_STATE_CHANGED (new_state : GstState)
  | GST_MESSAGE_OTHER
  deriving DecidableEq, Repr

/-- What a run of `main` leaves behind: the exit code and the pipelines that
were created. -/
structure Outcome where
  code : Int
  playback_pipeline : Option GstElement
  capture_pipeline : Option GstElement
  deriving DecidableEq, Repr

/-! ## The camera-preview program: `gstreamer_controller.c` -/

namespace Controller

def FRAME_WIDTH : Nat := 640
def FRAME_HEIGHT : Nat := 480
def FRAME_CHANNELS : Nat := 3
def FRAME_SIZE : Nat := FRAME_WIDTH * FRAME_HEIGHT * FRAME_CHANNELS

/-- The fields of GstVideoInfo that `pull_sample` reads. -/
structure GstVideoInfo where
  width : Nat
  height : Nat
  deriving DecidableEq, Repr

/-- The caps of a sample; `info` is what `gst_video_info_from_caps` makes of
them, `none` when it returns FALSE. -/
structure GstCaps where
  info : Option GstVideoInfo
  deriving DecidableEq, Repr

/-- The call gst_video_info_from_caps (&vinfo, caps). -/
def gst_video_info_from_caps (caps : GstCaps) : Option GstVideoInfo := caps.info

/-- A GstMapInfo filled by a successful `gst_buffer_map`. -/
structure GstMapInfo where
  data : Nat → Byte
  size : Nat

/-- A GstVideoFrame filled by a successful `gst_video_frame_map`: plane 0,
its row stride, and the number of bytes mapped for it. -/
structure GstVideoFrame where
  plane_data : Nat → Byte
  plane_stride : Nat
  plane_size : Nat

/-- A sample pulled from the appsink, with the outcome of every call that
`pull_sample` makes on it: `caps` is `gst_sample_get_caps` (`none` for NULL),
`map` is `gst_buffer_map` on its buffer (`none` for FALSE), `frame` is
`gst_video_frame_map` (`none` for FALSE). -/
structure GstSample where
  caps : Option GstCaps
  map : Option GstMapInfo
  frame : Option GstVideoFrame

/-- The calls of `pull_sample` that acquire, release or emit something. -/
inductive Call
  | gst_sample_unref
  | gst_buffer_map (ok : Bool)
  | gst_buffer_unmap
  | gst_video_frame_map (ok : Bool)
  | gst_video_frame_unmap
  | g_malloc (n : Nat)
  | g_free
  | write (bytes : List Byte)
  deriving DecidableEq

/-- The `count` bytes that `write (fd, buf, count)` takes from `buf`. -/
def buffer_bytes (buf : Nat → Byte) (count : Nat) : List Byte :=
  (List.range count).map buf

/-- One `memcpy (dst, src, n)` of the repack loop, as offsets: `dst` into the
allocated block, `src` into plane 0. -/
structure Memcpy where
  dst : Nat
  src : Nat
  n : Nat
  deriving DecidableEq, Repr

/-- The effect of `memcpy (contig + dst, plane + src, n)` on the block. -/
def memcpy (contig : Nat → Byte) (dst : Nat) (plane : Nat → Byte) (src n : Nat) :
    Nat → Byte :=
  fun k => if dst ≤ k ∧ k < dst + n then plane (src + (k - dst)) else contig k

/-- The variables of the repack loop: the block `contig`, the offset of the
pointer `dst` in it, and the `memcpy` calls made so far. -/
structure Repack where
  contig : Nat → Byte
  dst : Nat
  copies : List Memcpy

/-- The body of the loop for one `row`: `src_row` is plane 0 plus the guint
product `row * stride`. -/
def repack_row (vframe : GstVideoFrame) (expected_row_bytes : Nat) (st : Repack)
    (row : Nat) : Repack :=
  let src_row := (row * vframe.plane_stride) % GUINT
  { contig := memcpy st.contig st.dst vframe.plane_data src_row expected_row_bytes
    dst := st.dst + expected_row_bytes
    copies := st.copies ++ [{ dst := st.dst, src := src_row, n := expected_row_bytes }] }

/-- The loop `for (row = 0; row < vinfo.height; ++row)` on a block whose
contents after `g_malloc` are `heap`: the block it leaves and the `memcpy`
calls it makes. Whether each of them stores inside the block is checked where
the loop is used, in `emit_frame`. -/
def repack (heap : Nat → Byte) (vframe : GstVideoFrame) (expected_row_bytes height : Nat) :
    Repack :=
  (List.range height).foldl (repack_row vframe expected_row_bytes)
    { contig := heap, dst := 0, copies := [] }

/-- The guint `expected_row_bytes` of `pull_sample`. -/
def expected_row_bytes (vinfo : GstVideoInfo) : Nat :=
  (vinfo.width * FRAME_CHANNELS) % GUINT

/-- The guint `expected_total_bytes` of `pull_sample`. -/
def expected_total_bytes (vinfo : GstVideoInfo) : Nat :=
  (expected_row_bytes vinfo * vinfo.height) % GUINT

/-- Whether the `memcpy` stores inside a block of `size` bytes. -/
def Memcpy.fits (size : Nat) (c : Memcpy) : Bool :=
  decide (c.dst + c.n ≤ size)

/-- The part of `pull_sample` between `gst_buffer_map` and
`gst_buffer_unmap`, for a buffer mapped as `map`: the calls made, and whether
the part runs to its end. It does not when a `memcpy` of the repack loop
would store outside the `expected_total_bytes` of the block: the run ends
there, after `g_malloc`. -/
def emit_frame (heap : Nat → Byte) (sample : GstSample) (vinfo : GstVideoInfo)
    (map : GstMapInfo) : List Call × Bool :=
  if map.size = expected_total_bytes vinfo then
    ([Call.write (buffer_bytes map.data map.size)], true)
  else
    match sample.frame with
    | none => ([Call.gst_video_frame_map false], true)
    | some vframe =>
      if (repack heap vframe (expected_row_bytes vinfo) vinfo.height).copies.all
          (Memcpy.fits (expected_total_bytes vinfo)) then
        ([Call.gst_video_frame_map true,
          Call.g_malloc (expected_total_bytes vinfo),
          Call.write (buffer_bytes
            (repack heap vframe (expected_row_bytes vinfo) vinfo.height).contig
            (expected_total_bytes vinfo)),
          Call.g_free,
          Call.gst_video_frame_unmap], true)
      else
        ([Call.gst_video_frame_map true,
          Call.g_malloc (expected_total_bytes vinfo)], false)

/-- The callback `pull_sample`. `pulled` is the result of
`gst_app_sink_pull_sample` (`none` for NULL) and `heap` the contents of the
block that `g_malloc` would return. The result is the return value, `none`
when the run ends inside the repack loop without returning, and the calls
made, in order. -/
def pull_sample (heap : Nat → Byte) (pulled : Option GstSample) :
    Option GstFlowReturn × List Call :=
  match pulled with
  | none => (some GstFlowReturn.GST_FLOW_ERROR, [])
  | some sample =>
    match sample.caps with
    | none => (some GstFlowReturn.GST_FLOW_ERROR, [Call.gst_sample_unref])
    | some caps =>
      match gst_video_info_from_caps caps with
      | none => (some GstFlowReturn.GST_FLOW_ERROR, [Call.gst_sample_unref])
      | some vinfo =>
        match sample.map with
        | none =>
          (some GstFlowReturn.GST_FLOW_OK,
            [Call.gst_buffer_map false] ++ [Call.gst_sample_unref])
        | some map =>
          if (emit_frame heap sample vinfo map).2 then
            (some GstFlowReturn.GST_FLOW_OK,
              [Call.gst_buffer_map true] ++ (emit_frame heap sample vinfo map).1
                ++ [Call.gst_buffer_unmap] ++ [Call.gst_sample_unref])
          else
            (none, [Call.gst_buffer_map true] ++ (emit_frame heap sample vinfo map).1)

/-- The bytes that a list of calls puts on standard output. -/
def written : List Call → List Byte
  | [] => []
  | Call.write bytes :: cs => bytes ++ written cs
  | _ :: cs => written cs

/-- The fields of CustomData that `cb_message` uses (`app_sink` is only
used to connect `pull_sample`). -/
structure CustomData where
  capture_pipeline : GstElement
  loop : GMainLoop
  deriving DecidableEq, Repr

/-- The callback `cb_message` of the camera-preview program. -/
def cb_message (data : CustomData) (msg : GstMessage) : CustomData :=
  match msg with
  | GstMessage.GST_MESSAGE_ERROR =>
    let data := { data with
      capture_pipeline := gst_element_set_state data.capture_pipeline GstState.GST_STATE_READY }
    { data with loop := g_main_loop_quit data.loop }
  | GstMessage.GST_MESSAGE_EOS =>
    { data with loop := g_main_loop_quit data.loop }
  | GstMessage.GST_MESSAGE_STATE_CHANGED _ => data
  | _ => data

/-- The call g_main_loop_run (main_loop): the bus messages are handed to
`cb_message` in order until one of them stops the loop, which is taken to
return right after that callback; `none` when the messages end with the loop
still running, which never returns. -/
def g_main_loop_run (data : CustomData) : List GstMessage → Option CustomData
  | [] => none
  | msg :: rest =>
    let data := cb_message data msg
    if data.loop.is_running then g_main_loop_run data rest else some data

/-- The outcomes of the start-up calls of `main` that it branches on. -/
structure Startup where
  app_sink_type : Bool
  capture_launch : Bool
  sink_found : Bool
  capture_play : GstStateChangeReturn
  deriving DecidableEq, Repr

/-- The function `main` of the camera-preview program, on the bus messages
`msgs`; `none` when the main loop never returns. -/
def main (env : Startup) (msgs : List GstMessage) : Option Outcome :=
  if !env.app_sink_type then
    some { code := -1, playback_pipeline := none, capture_pipeline := none }
  else if !env.capture_launch then
    some { code := -1, playback_pipeline := none, capture_pipeline := none }
  else
    let capture_pipeline := GstElement.launched
    if !env.sink_found then
      some { code := -1, playback_pipeline := none,
             capture_pipeline := some (gst_object_unref capture_pipeline) }
    else
      let capture_pipeline :=
        gst_element_set_state_ret capture_pipeline GstState.GST_STATE_PLAYING env.capture_play
      if env.capture_play = GstStateChangeReturn.GST_STATE_CHANGE_FAILURE then
        some { code := -1, playback_pipeline := none,
               capture_pipeline := some (gst_object_unref capture_pipeline) }
      else
        let data : CustomData :=
          { capture_pipeline := capture_pipeline
            loop := { g_main_loop_new with is_running := true } }
        match g_main_loop_run data msgs with
        | none => none
        | some data =>
          let capture_pipeline :=
            gst_element_set_state data.capture_pipeline GstState.GST_STATE_NULL
          some { code := 0, playback_pipeline := none,
                 capture_pipeline := some (gst_object_unref capture_pipeline) }

end Controller

/-! ## The RTSP playback program: `videoInput.c` -/

namespace VideoInput

/-- The structure CustomData of the playback program. -/
structure CustomData where
  is_live : Bool
  playback_pipeline : GstElement
  capture_pipeline : GstElement
  loop : GMainLoop
  deriving DecidableEq, Repr

/-- The callback `cb_message` of the playback program. -/
def cb_message (data : CustomData) (msg : GstMessage) : CustomData :=
  match msg with
  | GstMessage.GST_MESSAGE_ERROR =>
    let data := { data with
      playback_pipeline := gst_element_set_state data.playback_pipeline GstState.GST_STATE_READY }
    let data := { data with
      capture_pipeline := gst_element_set_state data.capture_pipeline GstState.GST_STATE_READY }
    { data with loop := g_main_loop_quit data.loop }
  | GstMessage.GST_MESSAGE_EOS =>
    let data := { data with
      playback_pipeline := gst_element_set_state data.playback_pipeline GstState.GST_STATE_READY }
    { data with loop := g_main_loop_quit data.loop }
  | GstMessage.GST_MESSAGE_BUFFERING percent =>
    if data.is_live then data
    else if percent < 100 then
      { data with
        playback_pipeline := gst_element_set_state data.playback_pipeline GstState.GST_STATE_PAUSED }
    else
      { data with
        playback_pipeline := gst_element_set_state data.playback_pipeline GstState.GST_STATE_PLAYING }
  | GstMessage.GST_MESSAGE_CLOCK_LOST =>
    let data := { data with
      playback_pipeline := gst_element_set_state data.playback_pipeline GstState.GST_STATE_PAUSED }
    { data with
      playback_pipeline := gst_element_set_state data.playback_pipeline GstState.GST_STATE_PLAYING }
  | GstMessage.GST_MESSAGE_APPLICATION s =>
    if s.name = "GestureRecognized" then
      let action_id := gst_structure_get s (-1)
      if action_id = 1 then
        let current_state := gst_element_get_state data.playback_pipeline
        if current_state = GstState.GST_STATE_PLAYING then
          { data with
            playback_pipeline :=
              gst_element_set_state data.playback_pipeline GstState.GST_STATE_PAUSED }
        else
          { data with
            playback_pipeline :=
              gst_element_set_state data.playback_pipeline GstState.GST_STATE_PLAYING }
      else data
    else data
  | _ => data

/-- The call g_main_loop_run (main_loop): the messages of both buses are
handed to `cb_message` in the order the loop dispatches them, until one of
them stops the loop, which is taken to return right after that callback;
`none` when the messages end with the loop still running, which never
returns. -/
def g_main_loop_run (data : CustomData) : List GstMessage → Option CustomData
  | [] => none
  | msg :: rest =>
    let data := cb_message data msg
    if data.loop.is_running then g_main_loop_run data rest else some data

/-- The outcomes of the start-up of `main` that it branches on. -/
structure Startup where
  argc : Nat
  playback_launch : Bool
  capture_launch : Bool
  playback_play : GstStateChangeReturn
  capture_play : GstStateChangeReturn
  deriving DecidableEq, Repr

/-- The function `main` of the playback program, on the bus messages `msgs`;
`none` when the main loop never returns. -/
def main (env : Startup) (msgs : List GstMessage) : Option Outcome :=
  if env.argc < 2 then
    some { code := -1, playback_pipeline := none, capture_pipeline := none }
  else if !env.playback_launch then
    some { code := -1, playback_pipeline := none, capture_pipeline := none }
  else
    let playback_pipeline := GstElement.launched
    if !env.capture_launch then
      some { code := -1, playback_pipeline := some (gst_object_unref playback_pipeline),
             capture_pipeline := none }
    else
      let capture_pipeline := GstElement.launched
      let playback_pipeline :=
        gst_element_set_state_ret playback_pipeline GstState.GST_STATE_PLAYING env.playback_play
      if env.playback_play = GstStateChangeReturn.GST_STATE_CHANGE_FAILURE then
        some { code := -1, playback_pipeline := some (gst_object_unref playback_pipeline),
               capture_pipeline := some (gst_object_unref capture_pipeline) }
      else
        let is_live :=
          decide (env.playback_play = GstStateChangeReturn.GST_STATE_CHANGE_NO_PREROLL)
        let capture_pipeline :=
          gst_element_set_state_ret capture_pipeline GstState.GST_STATE_PLAYING env.capture_play
        if env.capture_play = GstStateChangeReturn.GST_STATE_CHANGE_FAILURE then
          some { code := -1, playback_pipeline := some (gst_object_unref playback_pipeline),
                 capture_pipeline := some (gst_object_unref capture_pipeline) }
        else
          let data : CustomData :=
            { is_live := is_live
              playback_pipeline := playback_pipeline
              capture_pipeline := capture_pipeline
              loop := { g_main_loop_new with is_running := true } }
          match g_main_loop_run data msgs with
          | none => none
          | some data =>
            let playback_pipeline :=
              gst_element_set_state data.playback_pipeline GstState.GST_STATE_NULL
            let capture_pipeline :=
              gst_element_set_state data.capture_pipeline GstState.GST_STATE_NULL
            some { code := 0, playback_pipeline := some (gst_object_unref playback_pipeline),
                   capture_pipeline := some (gst_object_unref capture_pipeline) }

end VideoInput

/-! ## Concrete inputs -/

namespace Controller

/-- A 2 x 1 frame whose buffer is already dense: 6 bytes. -/
def dense_sample : GstSample :=
  { caps := some { info := some { width := 2, height := 1 } }
    map := some { data := fun i => Fin.ofNat i, size := 6 }
    frame := some { plane_data := fun i => Fin.ofNat i, plane_stride := 6, plane_size := 6 } }

/-- A 2 x 2 frame whose rows are padded to 8 bytes: byte `i` of the plane
holds the value `i`. -/
def padded_sample : GstSample :=
  { caps := some { info := some { width := 2, height := 2 } }
    map := some { data := fun i => Fin.ofNat i, size := 16 }
    frame := some { plane_data := fun i => Fin.ofNat i, plane_stride := 8, plane_size := 16 } }

/-- A 2 x 2 frame with rows of exactly 6 bytes that `gst_buffer_map` maps
with two more bytes than the pixels. -/
def trailing_sample : GstSample :=
  { caps := some { info := some { width := 2, height := 2 } }
    map := some { data := fun i => Fin.ofNat i, size := 14 }
    frame := some { plane_data := fun i => Fin.ofNat i, plane_stride := 6, plane_size := 14 } }

/-- The same pixels as `trailing_sample` in a buffer of exactly 12 bytes. -/
def exact_sample : GstSample :=
  { caps := some { info := some { width := 2, height := 2 } }
    map := some { data := fun i => Fin.ofNat i, size := 12 }
    frame := some { plane_data := fun i => Fin.ofNat i, plane_stride := 6, plane_size := 12 } }

/-- A 65536 x 65536 frame with dense rows: 3 * 2 ^ 32 bytes. -/
def wide_sample : GstSample :=
  { caps := some { info := some { width := 65536, height := 65536 } }
    map := some { data := fun _ => 0, size := 12884901888 }
    frame := some { plane_data := fun _ => 0, plane_stride := 196608,
                    plane_size := 12884901888 } }

/-- A 65536 x 65537 frame whose buffer maps as 196608 bytes, one row. -/
def short_sample : GstSample :=
  { caps := some { info := some { width := 65536, height := 65537 } }
    map := some { data := fun _ => 0, size := 196608 }
    frame := some { plane_data := fun _ => 0, plane_stride := 196608, plane_size := 196608 } }

/-- A 1 x 4 frame with a stride of 2 ^ 31 - 1 bytes; the bytes of the plane
are 0 below offset 2 ^ 32 and 1 from there on. -/
def far_stride_sample : GstSample :=
  { caps := some { info := some { width := 1, height := 4 } }
    map := some { data := fun i => if i < 4294967296 then 0 else 1, size := 6442450944 }
    frame := some { plane_data := fun i => if i < 4294967296 then 0 else 1,
                    plane_stride := 2147483647, plane_size := 6442450944 } }

/-- A 320 x 240 frame whose buffer is dense: 230400 bytes. -/
def qvga_sample : GstSample :=
  { caps := some { info := some { width := 320, height := 240 } }
    map := some { data := fun _ => 0, size := 230400 }
    frame := some { plane_data := fun _ => 0, plane_stride := 960, plane_size := 230400 } }

/-- A start-up of the camera-preview program in which every call succeeds. -/
def started : Startup :=
  { app_sink_type := true, capture_launch := true, sink_found := true,
    capture_play := GstStateChangeReturn.GST_STATE_CHANGE_ASYNC }

end Controller

namespace VideoInput

/-- The messages `msgs` handed to `cb_message` one after the other. -/
def dispatch (data : CustomData) (msgs : List GstMessage) : CustomData :=
  msgs.foldl cb_message data

/-- One Buffering message below 100 percent followed by Buffering (100),
for each entry of `percents`. -/
def buffering_pairs : List Int → List GstMessage
  | [] => []
  | p :: ps =>
    GstMessage.GST_MESSAGE_BUFFERING p :: GstMessage.GST_MESSAGE_BUFFERING 100 ::
      buffering_pairs ps

/-- A start-up of the playback program in which every call succeeds and the
RTSP source is not live. -/
def started : Startup :=
  { argc := 2, playback_launch := true, capture_launch := true,
    playback_play := GstStateChangeReturn.GST_STATE_CHANGE_ASYNC,
    capture_play := GstStateChangeReturn.GST_STATE_CHANGE_ASYNC }

/-- The data of the playback program while both pipelines play. -/
def playing (is_live : Bool) : CustomData :=
  { is_live := is_live
    playback_pipeline :=
      gst_element_set_state GstElement.launched GstState.GST_STATE_PLAYING
    capture_pipeline :=
      gst_element_set_state GstElement.launched GstState.GST_STATE_PLAYING
    loop := { g_main_loop_new with is_running := true } }

/-- A GestureRecognized structure carrying `action`. -/
def gesture (action : Int) : GstStructure :=
  { name := "GestureRecognized", gesture_name := some "swipe", action := some action }

end VideoInput

/-! ## The repack loop -/

namespace Controller

theorem repack_succ (heap : Nat → Byte) (vframe : GstVideoFrame) (rb n : Nat) :
    repack heap vframe rb (n + 1) = repack_row vframe rb (repack heap vframe rb n) n := by
  simp [repack, List.range_succ, List.foldl_append]

theorem repack_dst (heap : Nat → Byte) (vframe : GstVideoFrame) (rb n : Nat) :
    (repack heap vframe rb n).dst = n * rb := by
  induction n with
  | zero => simp [repack]
  | succ n ih => rw [repack_succ]; simp only [repack_row, ih]; ring

theorem repack_copies (heap : Nat → Byte) (vframe : GstVideoFrame) (rb n : Nat) :
    (repack heap vframe rb n).copies =
      (List.range n).map fun row =>
        ({ dst := row * rb, src := (row * vframe.plane_stride) % GUINT, n := rb } : Memcpy) := by
  induction n with
  | zero => simp [repack]
  | succ n ih =>
    rw [repack_succ]
    simp only [repack_row, ih, repack_dst, List.range_succ, List.map_append, List.map_cons,
      List.map_nil]

/-- After the loop, byte `j` of row `r` of the block is byte `j` of the
source row that starts at the guint offset `r * stride`. -/
theorem repack_contig (heap : Nat → Byte) (vframe : GstVideoFrame) (rb n r j : Nat)
    (hr : r < n) (hj : j < rb) :
    (repack heap vframe rb n).contig (r * rb + j) =
      vframe.plane_data ((r * vframe.plane_stride) % GUINT + j) := by
  induction n with
  | zero => omega
  | succ n ih =>
    rw [repack_succ]
    simp only [repack_row, repack_dst, memcpy]
    by_cases hrn : r = n
    · subst hrn
      have h1 : r * rb ≤ r * rb + j ∧ r * rb + j < r * rb + rb := by omega
      rw [if_pos h1]
      congr 2
      omega
    · have hlt : r < n := by omega
      have h2 : (r + 1) * rb ≤ n * rb := Nat.mul_le_mul_right rb hlt
      have h3 : ¬ (n * rb ≤ r * rb + j ∧ r * rb + j < n * rb + rb) := by
        have : (r + 1) * rb = r * rb + rb := by ring
        omega
      rw [if_neg h3]
      exact ih hlt

/-- What `pull_sample` writes for a sample whose caps parse to `vinfo` and
whose buffer maps as `map`. -/
theorem written_pull_sample (heap : Nat → Byte) (sample : GstSample) (vinfo : GstVideoInfo)
    (map : GstMapInfo) (hcaps : sample.caps = some { info := some vinfo })
    (hmap : sample.map = some map) :
    written (pull_sample heap (some sample)).2 =
      if map.size = expected_total_bytes vinfo then buffer_bytes map.data map.size
      else match sample.frame with
        | none => []
        | some vframe =>
          if (repack heap vframe (expected_row_bytes vinfo) vinfo.height).copies.all
              (Memcpy.fits (expected_total_bytes vinfo)) then
            buffer_bytes (repack heap vframe (expected_row_bytes vinfo) vinfo.height).contig
              (expected_total_bytes vinfo)
          else [] := by
  simp only [pull_sample, hcaps, hmap, gst_video_info_from_caps, emit_frame]
  by_cases hsz : map.size = expected_total_bytes vinfo
  · simp [hsz, written]
  · cases hf : sample.frame with
    | none => simp [hsz, written]
    | some vframe =>
      by_cases hfits : (repack heap vframe (expected_row_bytes vinfo) vinfo.height).copies.all
          (Memcpy.fits (expected_total_bytes vinfo)) = true
      · simp [hsz, hfits, written]
      · simp [hsz, hfits, written]

theorem length_buffer_bytes (buf : Nat → Byte) (count : Nat) :
    (buffer_bytes buf count).length = count := by
  simp [buffer_bytes]

theorem expected_row_bytes_eq (vinfo : GstVideoInfo) (h : vinfo.width * 3 < 2 ^ 32) :
    expected_row_bytes vinfo = vinfo.width * 3 := by
  simp only [expected_row_bytes, FRAME_CHANNELS, GUINT]
  exact Nat.mod_eq_of_lt h

theorem expected_total_bytes_eq (vinfo : GstVideoInfo)
    (h : vinfo.width * vinfo.height * 3 < 2 ^ 32) :
    expected_total_bytes vinfo = vinfo.width * vinfo.height * 3 := by
  simp only [expected_total_bytes, expected_row_bytes, FRAME_CHANNELS, GUINT]
  rw [Nat.mod_mul_mod, Nat.mod_eq_of_lt] <;> [ring; skip]
  have h2 : vinfo.width * 3 * vinfo.height = vinfo.width * vinfo.height * 3 := by ring
  omega

/-- Within the guint range every `memcpy` of the repack loop stores inside
the allocated block. -/
theorem repack_fits (heap : Nat → Byte) (vframe : GstVideoFrame) (vinfo : GstVideoInfo)
    (hfit : vinfo.width * vinfo.height * 3 < 2 ^ 32) :
    (repack heap vframe (expected_row_bytes vinfo) vinfo.height).copies.all
      (Memcpy.fits (expected_total_bytes vinfo)) = true := by
  rw [List.all_eq_true]
  intro c hc
  rw [repack_copies, List.mem_map] at hc
  obtain ⟨row, hmem, rfl⟩ := hc
  have hr : row < vinfo.height := List.mem_range.mp hmem
  have hw3 : vinfo.width * 3 < 2 ^ 32 := by
    have : vinfo.width * 1 ≤ vinfo.width * vinfo.height := Nat.mul_le_mul_left _ (by omega)
    omega
  simp only [Memcpy.fits, decide_eq_true_eq, expected_total_bytes_eq vinfo hfit,
    expected_row_bytes_eq vinfo hw3]
  have h1 : (row + 1) * (vinfo.width * 3) ≤ vinfo.height * (vinfo.width * 3) :=
    Nat.mul_le_mul_right _ hr
  have h2 : (row + 1) * (vinfo.width * 3) = row * (vinfo.width * 3) + vinfo.width * 3 := by
    ring
  have h3 : vinfo.height * (vinfo.width * 3) = vinfo.width * vinfo.height * 3 := by ring
  omega

/-- What `pull_sample` writes within the guint range. -/
theorem written_pull_sample_fit (heap : Nat → Byte) (sample : GstSample)
    (vinfo : GstVideoInfo) (map : GstMapInfo)
    (hcaps : sample.caps = some { info := some vinfo })
    (hmap : sample.map = some map)
    (hfit : vinfo.width * vinfo.height * 3 < 2 ^ 32) :
    written (pull_sample heap (some sample)).2 =
      if map.size = vinfo.width * vinfo.height * 3 then buffer_bytes map.data map.size
      else match sample.frame with
        | none => []
        | some vframe =>
          buffer_bytes (repack heap vframe (expected_row_bytes vinfo) vinfo.height).contig
            (vinfo.width * vinfo.height * 3) := by
  rw [written_pull_sample heap sample vinfo map hcaps hmap, expected_total_bytes_eq vinfo hfit]
  cases hf : sample.frame with
  | none => rfl
  | some vframe =>
    have h := repack_fits heap vframe vinfo hfit
    rw [expected_total_bytes_eq vinfo hfit] at h
    simp only [h, if_true]

/-- Within the guint range, a sample whose buffer maps, and whose frame
maps when the mapped size is not w * h * 3, has w * h * 3 bytes written. -/
theorem written_length_fit (heap : Nat → Byte) (sample : GstSample)
    (vinfo : GstVideoInfo) (map : GstMapInfo)
    (hcaps : sample.caps = some { info := some vinfo })
    (hmap : sample.map = some map)
    (hframe : map.size = vinfo.width * vinfo.height * 3 ∨ ∃ vframe, sample.frame = some vframe)
    (hfit : vinfo.width * vinfo.height * 3 < 2 ^ 32) :
    (written (pull_sample heap (some sample)).2).length =
      vinfo.width * vinfo.height * 3 := by
  rw [written_pull_sample_fit heap sample vinfo map hcaps hmap hfit]
  by_cases hsz : map.size = vinfo.width * vinfo.height * 3
  · rw [if_pos hsz, length_buffer_bytes, hsz]
  · rw [if_neg hsz]
    rcases hframe with h | ⟨vframe, hvf⟩
    · exact absurd h hsz
    · simp only [hvf, length_buffer_bytes]

/-- The return value of `pull_sample` for a sample whose caps parse and
whose buffer maps: GST_FLOW_OK unless a `memcpy` of the repack loop leaves
the block. -/
theorem pull_sample_fst (heap : Nat → Byte) (sample : GstSample) (vinfo : GstVideoInfo)
    (map : GstMapInfo) (hcaps : sample.caps = some { info := some vinfo })
    (hmap : sample.map = some map) :
    (pull_sample heap (some sample)).1 =
      if (emit_frame heap sample vinfo map).2 then some GstFlowReturn.GST_FLOW_OK
      else none := by
  simp only [pull_sample, hcaps, hmap, gst_video_info_from_caps]
  split <;> rfl

/-- Within the guint range the part between map and unmap runs to its end. -/
theorem emit_frame_completes (heap : Nat → Byte) (sample : GstSample) (vinfo : GstVideoInfo)
    (map : GstMapInfo) (hfit : vinfo.width * vinfo.height * 3 < 2 ^ 32) :
    (emit_frame heap sample vinfo map).2 = true := by
  simp only [emit_frame]
  split
  · rfl
  · split
    · rfl
    · rw [if_pos (repack_fits heap _ vinfo hfit)]

end Controller

/-! ## The frame normaliser: `pull_sample` -/

namespace Controller

/-- C1, as amended: for a sample of parsed width w and height h with
w * h * 3 < 2 ^ 32 whose buffer maps, and whose frame maps with a stride of
at least 3 * w when the mapped size is not w * h * 3, `pull_sample` writes
exactly w * h * 3 bytes to standard output, on the zero-copy branch and on
the repack branch alike. -/
theorem pull_sample_writes_frame_size (heap : Nat → Byte) (sample : GstSample)
    (vinfo : GstVideoInfo) (map : GstMapInfo)
    (hcaps : sample.caps = some { info := some vinfo })
    (hmap : sample.map = some map)
    (hframe : map.size = vinfo.width * vinfo.height * 3 ∨
      ∃ vframe, sample.frame = some vframe ∧ 3 * vinfo.width ≤ vframe.plane_stride)
    (hfit : vinfo.width * vinfo.height * 3 < 2 ^ 32) :
    (written (pull_sample heap (some sample)).2).length =
      vinfo.width * vinfo.height * 3 := by
  apply written_length_fit heap sample vinfo map hcaps hmap _ hfit
  rcases hframe with h | ⟨vframe, hvf, _⟩
  · exact Or.inl h
  · exact Or.inr ⟨vframe, hvf⟩

/-- Witness of C1 on the padded 2 x 2 frame (repack branch). -/
theorem pull_sample_writes_frame_size_witness :
    (2 : Nat) * 2 * 3 < 2 ^ 32 ∧
      (written (pull_sample (fun _ => 0) (some padded_sample)).2).length = 2 * 2 * 3 :=
  ⟨by decide,
   pull_sample_writes_frame_size (fun _ => 0) padded_sample { width := 2, height := 2 }
     { data := fun i => Fin.ofNat i, size := 16 } rfl rfl
     (Or.inr ⟨_, rfl, by decide⟩) (by decide)⟩

/-- C1 as stated fails where the guint product wraps. For a 65536 x 65537
sample `expected_total_bytes` is 3 * 65536 * 65537 mod 2 ^ 32 = 196608; when
its buffer maps as 196608 bytes the zero-copy branch is taken and 196608
bytes are written, not w * h * 3 = 12885098496. -/
theorem pull_sample_writes_frame_size_counterexample :
    short_sample.caps = some { info := some { width := 65536, height := 65537 } } ∧
    (∃ map vframe, short_sample.map = some map ∧ short_sample.frame = some vframe ∧
      3 * 65536 ≤ vframe.plane_stride) ∧
    (written (pull_sample (fun _ => 0) (some short_sample)).2).length = 196608 ∧
    (196608 : Nat) ≠ 65536 * 65537 * 3 := by
  refine ⟨rfl, ⟨_, _, rfl, rfl, by decide⟩, ?_, by decide⟩
  rw [written_pull_sample (fun _ => 0) short_sample _ _ rfl rfl]
  have h : expected_total_bytes { width := 65536, height := 65537 } = 196608 := by decide
  simp [h, short_sample, length_buffer_bytes]

/-- On the repack branch without wrap, the bytes written are the first
w * h * 3 bytes of the block filled by the loop. -/
theorem written_repack_branch (heap : Nat → Byte) (sample : GstSample)
    (vinfo : GstVideoInfo) (map : GstMapInfo) (vframe : GstVideoFrame)
    (hcaps : sample.caps = some { info := some vinfo })
    (hmap : sample.map = some map)
    (hsize : map.size ≠ expected_total_bytes vinfo)
    (hframe : sample.frame = some vframe)
    (hfit : vinfo.width * vinfo.height * 3 < 2 ^ 32) :
    written (pull_sample heap (some sample)).2 =
      buffer_bytes (repack heap vframe (expected_row_bytes vinfo) vinfo.height).contig
        (vinfo.width * vinfo.height * 3) := by
  rw [expected_total_bytes_eq vinfo hfit] at hsize
  rw [written_pull_sample_fit heap sample vinfo map hcaps hmap hfit, if_neg hsize, hframe]

/-- Byte `j` of row `r` of the block, read through `buffer_bytes`, when no
guint product wraps. -/
theorem buffer_bytes_repack_row (heap : Nat → Byte) (vinfo : GstVideoInfo)
    (vframe : GstVideoFrame)
    (hfit : vinfo.width * vinfo.height * 3 < 2 ^ 32)
    (hstride : (vinfo.height - 1) * vframe.plane_stride < 2 ^ 32)
    (r j : Nat) (hr : r < vinfo.height) (hj : j < 3 * vinfo.width) :
    (buffer_bytes (repack heap vframe (expected_row_bytes vinfo) vinfo.height).contig
      (vinfo.width * vinfo.height * 3))[r * (3 * vinfo.width) + j]? =
        some (vframe.plane_data (r * vframe.plane_stride + j)) := by
  have hh : 1 ≤ vinfo.height := by omega
  have hw3 : vinfo.width * 3 < 2 ^ 32 := by
    have : vinfo.width * 1 ≤ vinfo.width * vinfo.height := Nat.mul_le_mul_left _ hh
    omega
  have hrb : expected_row_bytes vinfo = 3 * vinfo.width := by
    rw [expected_row_bytes_eq vinfo hw3, Nat.mul_comm]
  have hidx : r * (3 * vinfo.width) + j < vinfo.width * vinfo.height * 3 := by
    have h1 : (r + 1) * (3 * vinfo.width) ≤ vinfo.height * (3 * vinfo.width) :=
      Nat.mul_le_mul_right _ hr
    have h2 : (r + 1) * (3 * vinfo.width) = r * (3 * vinfo.width) + 3 * vinfo.width := by ring
    have h3 : vinfo.height * (3 * vinfo.width) = vinfo.width * vinfo.height * 3 := by ring
    omega
  have hsrc : (r * vframe.plane_stride) % GUINT = r * vframe.plane_stride := by
    apply Nat.mod_eq_of_lt
    have : r * vframe.plane_stride ≤ (vinfo.height - 1) * vframe.plane_stride :=
      Nat.mul_le_mul_right _ (by omega)
    simp only [GUINT]
    omega
  simp only [buffer_bytes, List.getElem?_map, List.getElem?_range hidx, Option.map_some']
  have hc := repack_contig heap vframe (expected_row_bytes vinfo) vinfo.height r j hr
    (by rw [hrb]; exact hj)
  rw [hrb, hsrc] at hc
  rw [hrb, hc]

/-- Every offset below w * h * 3 is byte `j < 3 * w` of a row `r < h`. -/
theorem offset_row_column (w h k : Nat) (hk : k < w * h * 3) :
    ∃ r j, r < h ∧ j < 3 * w ∧ k = r * (3 * w) + j := by
  have hwpos : 0 < 3 * w := by
    rcases Nat.eq_zero_or_pos (3 * w) with h0 | h0
    · have : w = 0 := by omega
      simp [this] at hk
    · exact h0
  refine ⟨k / (3 * w), k % (3 * w), ?_, Nat.mod_lt _ hwpos, (Nat.div_add_mod' k (3 * w)).symm⟩
  rw [Nat.div_lt_iff_lt_mul hwpos]
  have : h * (3 * w) = w * h * 3 := by ring
  omega

/-- C2, as amended: on the repack branch, when w * h * 3 < 2 ^ 32 and
(h - 1) * stride < 2 ^ 32, the bytes written are exactly w * h * 3, byte
r * (3 * w) + j of them is the byte of the source plane at offset
r * stride + j for every row r < h and column byte j < 3 * w, and every byte
written is such a byte: no source offset r * stride + j with j >= 3 * w
reaches the output. -/
theorem pull_sample_repack_rows (heap : Nat → Byte) (sample : GstSample)
    (vinfo : GstVideoInfo) (map : GstMapInfo) (vframe : GstVideoFrame)
    (hcaps : sample.caps = some { info := some vinfo })
    (hmap : sample.map = some map)
    (hsize : map.size ≠ expected_total_bytes vinfo)
    (hframe : sample.frame = some vframe)
    (hfit : vinfo.width * vinfo.height * 3 < 2 ^ 32)
    (hstride : (vinfo.height - 1) * vframe.plane_stride < 2 ^ 32) :
    (written (pull_sample heap (some sample)).2).length = vinfo.width * vinfo.height * 3 ∧
    (∀ r j, r < vinfo.height → j < 3 * vinfo.width →
      (written (pull_sample heap (some sample)).2)[r * (3 * vinfo.width) + j]? =
        some (vframe.plane_data (r * vframe.plane_stride + j))) ∧
    (∀ k, k < (written (pull_sample heap (some sample)).2).length →
      ∃ r j, r < vinfo.height ∧ j < 3 * vinfo.width ∧ k = r * (3 * vinfo.width) + j ∧
        (written (pull_sample heap (some sample)).2)[k]? =
          some (vframe.plane_data (r * vframe.plane_stride + j))) := by
  rw [written_repack_branch heap sample vinfo map vframe hcaps hmap hsize hframe hfit]
  refine ⟨length_buffer_bytes _ _, buffer_bytes_repack_row heap vinfo vframe hfit hstride, ?_⟩
  intro k hk
  rw [length_buffer_bytes] at hk
  obtain ⟨r, j, hr, hj, hkeq⟩ := offset_row_column _ _ k hk
  refine ⟨r, j, hr, hj, hkeq, ?_⟩
  rw [hkeq]
  exact buffer_bytes_repack_row heap vinfo vframe hfit hstride r j hr hj

/-- Witness of C2 on the padded 2 x 2 frame with stride 8. -/
theorem pull_sample_repack_rows_witness :
    ((2 : Nat) * 2 * 3 < 2 ^ 32 ∧ (2 - 1) * 8 < 2 ^ 32) ∧
    (written (pull_sample (fun _ => 0) (some padded_sample)).2).length = 2 * 2 * 3 ∧
    (∀ r j, r < 2 → j < 3 * 2 →
      (written (pull_sample (fun _ => 0) (some padded_sample)).2)[r * (3 * 2) + j]? =
        some (Fin.ofNat (r * 8 + j))) ∧
    (∀ k, k < (written (pull_sample (fun _ => 0) (some padded_sample)).2).length →
      ∃ r j, r < 2 ∧ j < 3 * 2 ∧ k = r * (3 * 2) + j ∧
        (written (pull_sample (fun _ => 0) (some padded_sample)).2)[k]? =
          some (Fin.ofNat (r * 8 + j))) :=
  ⟨by decide,
   pull_sample_repack_rows (fun _ => 0) padded_sample { width := 2, height := 2 }
     { data := fun i => Fin.ofNat i, size := 16 }
     { plane_data := fun i => Fin.ofNat i, plane_stride := 8, plane_size := 16 }
     rfl rfl (by decide) rfl (by decide) (by decide)⟩

/-- C2 as stated fails where the guint product `row * stride` wraps. On the
1 x 4 sample with stride 2 ^ 31 - 1 the repack branch is taken (12 bytes are
expected, 6442450944 are mapped) and the byte written at offset
3 * (3 * 1) + 0 is the source byte at offset (3 * stride) mod 2 ^ 32, which
is 0, while the source byte at offset 3 * stride + 0 is 1. -/
theorem pull_sample_repack_rows_counterexample :
    far_stride_sample.caps = some { info := some { width := 1, height := 4 } } ∧
    (∃ map vframe, far_stride_sample.map = some map ∧
      map.size ≠ expected_total_bytes { width := 1, height := 4 } ∧
      far_stride_sample.frame = some vframe ∧ vframe.plane_stride = 2147483647 ∧
      vframe.plane_data (3 * 2147483647 + 0) = 1) ∧
    (written (pull_sample (fun _ => 0) (some far_stride_sample)).2)[3 * (3 * 1) + 0]? =
      some 0 := by
  refine ⟨rfl, ⟨_, _, rfl, by decide, rfl, rfl, by decide⟩, ?_⟩
  rw [written_pull_sample_fit (fun _ => 0) far_stride_sample _ _ rfl rfl (by decide)]
  have h : expected_total_bytes { width := 1, height := 4 } = 12 := by decide
  have hr : expected_row_bytes { width := 1, height := 4 } = 3 := by decide
  have hc := repack_contig (fun _ => 0)
    { plane_data := fun i => if i < 4294967296 then 0 else 1,
      plane_stride := 2147483647, plane_size := 6442450944 } 3 4 3 0
    (by decide) (by decide)
  simp only [GUINT] at hc
  norm_num at hc
  simp [h, hr, far_stride_sample, buffer_bytes, hc]

/-- Within the guint range the repack branch agrees with the zero-copy
branch: when the row stride is exactly 3 * w and w * h * 3 < 2 ^ 32, the
bytes written by the repack branch are the first w * h * 3 bytes of the
source plane, and they are the bytes that the zero-copy branch writes for a
buffer of w * h * 3 bytes holding the same pixel data. -/
theorem pull_sample_repack_eq_zero_copy (heap : Nat → Byte) (padded dense : GstSample)
    (vinfo : GstVideoInfo) (map map0 : GstMapInfo) (vframe : GstVideoFrame)
    (hcaps : padded.caps = some { info := some vinfo })
    (hmap : padded.map = some map)
    (hsize : map.size ≠ expected_total_bytes vinfo)
    (hframe : padded.frame = some vframe)
    (hstride : vframe.plane_stride = 3 * vinfo.width)
    (hcaps0 : dense.caps = some { info := some vinfo })
    (hmap0 : dense.map = some map0)
    (hsize0 : map0.size = vinfo.width * vinfo.height * 3)
    (hdata : ∀ i, i < vinfo.width * vinfo.height * 3 → map0.data i = vframe.plane_data i)
    (hfit : vinfo.width * vinfo.height * 3 < 2 ^ 32) :
    written (pull_sample heap (some padded)).2 =
      buffer_bytes vframe.plane_data (vinfo.width * vinfo.height * 3) ∧
    written (pull_sample heap (some padded)).2 = written (pull_sample heap (some dense)).2 := by
  have hlast : (vinfo.height - 1) * vframe.plane_stride < 2 ^ 32 := by
    rw [hstride]
    have h1 : (vinfo.height - 1) * (3 * vinfo.width) ≤ vinfo.height * (3 * vinfo.width) :=
      Nat.mul_le_mul_right _ (Nat.sub_le _ _)
    have h2 : vinfo.height * (3 * vinfo.width) = vinfo.width * vinfo.height * 3 := by ring
    omega
  have hfirst : written (pull_sample heap (some padded)).2 =
      buffer_bytes vframe.plane_data (vinfo.width * vinfo.height * 3) := by
    rw [written_repack_branch heap padded vinfo map vframe hcaps hmap hsize hframe hfit]
    apply List.ext_getElem?
    intro k
    by_cases hk : k < vinfo.width * vinfo.height * 3
    · obtain ⟨r, j, hr, hj, hkeq⟩ := offset_row_column _ _ k hk
      rw [hkeq, buffer_bytes_repack_row heap vinfo vframe hfit hlast r j hr hj, ← hkeq]
      simp only [buffer_bytes, List.getElem?_map, List.getElem?_range hk, Option.map_some']
      rw [hstride, ← hkeq]
    · rw [List.getElem?_eq_none (by rw [length_buffer_bytes]; omega),
        List.getElem?_eq_none (by rw [length_buffer_bytes]; omega)]
  refine ⟨hfirst, ?_⟩
  rw [hfirst, written_pull_sample heap dense vinfo map0 hcaps0 hmap0,
    expected_total_bytes_eq vinfo hfit, if_pos hsize0, hsize0]
  simp only [buffer_bytes]
  apply List.map_congr_left
  intro i hi
  exact (hdata i (List.mem_range.mp hi)).symm

/-- The agreement of the two branches on the 2 x 2 frame with stride 6:
mapped with trailing bytes (repack branch) against the same pixels mapped as
exactly 12 bytes (zero-copy branch). -/
theorem pull_sample_repack_eq_zero_copy_witness :
    ((6 : Nat) = 3 * 2 ∧ (2 : Nat) * 2 * 3 < 2 ^ 32) ∧
    written (pull_sample (fun _ => 0) (some trailing_sample)).2 =
      buffer_bytes (fun i => Fin.ofNat i) (2 * 2 * 3) ∧
    written (pull_sample (fun _ => 0) (some trailing_sample)).2 =
      written (pull_sample (fun _ => 0) (some exact_sample)).2 :=
  ⟨by decide,
   pull_sample_repack_eq_zero_copy (fun _ => 0) trailing_sample exact_sample
     { width := 2, height := 2 }
     { data := fun i => Fin.ofNat i, size := 14 } { data := fun i => Fin.ofNat i, size := 12 }
     { plane_data := fun i => Fin.ofNat i, plane_stride := 6, plane_size := 14 }
     rfl rfl (by decide) rfl rfl rfl rfl rfl (fun _ _ => rfl) (by decide)⟩

/-- C9 fails on the code for the 65536 x 65536 sample, whose stride is exactly
3 * w: `expected_total_bytes` wraps to 0, the repack branch is taken,
`g_malloc (0)` is called, and the first `memcpy` of the loop, of 196608
bytes to offset 0, stores outside the block. The run ends there: no buffer
is produced, nothing is written, nothing is unmapped or released, and
`pull_sample` does not return. -/
theorem pull_sample_repack_overruns_block :
    wide_sample.caps = some { info := some { width := 65536, height := 65536 } } ∧
    (∃ map vframe, wide_sample.map = some map ∧
      map.size ≠ expected_total_bytes { width := 65536, height := 65536 } ∧
      wide_sample.frame = some vframe ∧ vframe.plane_stride = 3 * 65536 ∧
      ({ dst := 0, src := 0, n := 196608 } : Memcpy) ∈
        (repack (fun _ => 0) vframe
          (expected_row_bytes { width := 65536, height := 65536 }) 65536).copies) ∧
    expected_total_bytes { width := 65536, height := 65536 } = 0 ∧
    pull_sample (fun _ => 0) (some wide_sample) =
      (none, [Call.gst_buffer_map true, Call.gst_video_frame_map true, Call.g_malloc 0]) := by
  have ht : expected_total_bytes { width := 65536, height := 65536 } = 0 := by decide
  have hr : expected_row_bytes { width := 65536, height := 65536 } = 196608 := by decide
  have hmem : ∀ vframe : GstVideoFrame, ({ dst := 0, src := 0, n := 196608 } : Memcpy) ∈
      (repack (fun _ => 0) vframe
        (expected_row_bytes { width := 65536, height := 65536 }) 65536).copies := by
    intro vframe
    rw [repack_copies, hr, List.mem_map]
    exact ⟨0, List.mem_range.mpr (by decide), by simp [GUINT]⟩
  have hall : (repack (fun _ => 0)
      { plane_data := fun _ => 0, plane_stride := 196608, plane_size := 12884901888 }
      (expected_row_bytes { width := 65536, height := 65536 }) 65536).copies.all
        (Memcpy.fits (expected_total_bytes { width := 65536, height := 65536 })) = false := by
    rw [List.all_eq_false]
    exact ⟨_, hmem _, by rw [ht]; decide⟩
  refine ⟨rfl, ⟨_, _, rfl, by decide, rfl, rfl, hmem _⟩, ht, ?_⟩
  have hsz : (12884901888 : Nat) ≠ expected_total_bytes { width := 65536, height := 65536 } := by
    rw [ht]; decide
  simp only [pull_sample, wide_sample, gst_video_info_from_caps, emit_frame, if_neg hsz, hall]
  simp [ht]

/-- C10: for every width w, height h and stride s with 3 * w <= s,
3 * w * h < 2 ^ 32 and (h - 1) * s + 3 * w <= plane size < 2 ^ 32, the guint
products w * 3, (w * 3) * h and row * s (row < h) do not wrap, the block
allocated has 3 * w * h bytes, and every `memcpy` of the repack loop reads
only offsets inside the source plane and writes only offsets inside the
block. -/
theorem repack_in_bounds (heap : Nat → Byte) (vframe : GstVideoFrame) (vinfo : GstVideoInfo)
    (_hs : 3 * vinfo.width ≤ vframe.plane_stride)
    (hfit : 3 * vinfo.width * vinfo.height < 2 ^ 32)
    (hplane : (vinfo.height - 1) * vframe.plane_stride + 3 * vinfo.width ≤ vframe.plane_size)
    (hsize : vframe.plane_size < 2 ^ 32) :
    vinfo.width * FRAME_CHANNELS < GUINT ∧
    expected_row_bytes vinfo * vinfo.height < GUINT ∧
    expected_total_bytes vinfo = 3 * vinfo.width * vinfo.height ∧
    (∀ row, row < vinfo.height → row * vframe.plane_stride < GUINT) ∧
    (repack heap vframe (expected_row_bytes vinfo) vinfo.height).copies.length = vinfo.height ∧
    (∀ c ∈ (repack heap vframe (expected_row_bytes vinfo) vinfo.height).copies,
      c.n = 3 * vinfo.width ∧
      ∀ j, j < c.n →
        c.src + j < vframe.plane_size ∧ c.dst + j < expected_total_bytes vinfo) := by
  have hw3 : vinfo.width * 3 < 2 ^ 32 := by omega
  have hrb : expected_row_bytes vinfo = 3 * vinfo.width := by
    rw [expected_row_bytes_eq vinfo hw3, Nat.mul_comm]
  have htot : expected_total_bytes vinfo = 3 * vinfo.width * vinfo.height := by
    rw [expected_total_bytes_eq vinfo (by
      have : vinfo.width * vinfo.height * 3 = 3 * vinfo.width * vinfo.height := by ring
      omega)]
    ring
  have hrow : ∀ row, row < vinfo.height →
      row * vframe.plane_stride ≤ (vinfo.height - 1) * vframe.plane_stride := by
    intro row hrow
    exact Nat.mul_le_mul_right _ (by omega)
  refine ⟨by simpa [FRAME_CHANNELS, GUINT] using hw3, by rw [hrb]; simpa [GUINT] using hfit,
    htot, ?_, ?_, ?_⟩
  · intro row hr
    have := hrow row hr
    simp only [GUINT]
    omega
  · simp [repack_copies]
  · intro c hc
    rw [repack_copies, List.mem_map] at hc
    obtain ⟨row, hmem, rfl⟩ := hc
    have hr : row < vinfo.height := List.mem_range.mp hmem
    have hle := hrow row hr
    have hmod : (row * vframe.plane_stride) % GUINT = row * vframe.plane_stride := by
      apply Nat.mod_eq_of_lt
      simp only [GUINT]
      omega
    refine ⟨hrb, ?_⟩
    intro j hj
    simp only [hrb] at hj
    simp only [hmod, hrb, htot]
    have h1 : (row + 1) * (3 * vinfo.width) ≤ vinfo.height * (3 * vinfo.width) :=
      Nat.mul_le_mul_right _ hr
    have h2 : (row + 1) * (3 * vinfo.width) = row * (3 * vinfo.width) + 3 * vinfo.width := by
      ring
    have h3 : vinfo.height * (3 * vinfo.width) = 3 * vinfo.width * vinfo.height := by ring
    constructor <;> omega

/-- Witness of C10 on the padded 2 x 2 frame: stride 8, plane of 16 bytes. -/
theorem repack_in_bounds_witness :
    ((3 : Nat) * 2 ≤ 8 ∧ (3 : Nat) * 2 * 2 < 2 ^ 32 ∧ (2 - 1) * 8 + 3 * 2 ≤ 16 ∧
      (16 : Nat) < 2 ^ 32) ∧
    (repack (fun _ => 0)
      { plane_data := fun i => Fin.ofNat i, plane_stride := 8, plane_size := 16 }
      (expected_row_bytes { width := 2, height := 2 }) 2).copies.length = 2 :=
  ⟨by decide,
   (repack_in_bounds (fun _ => 0)
     { plane_data := fun i => Fin.ofNat i, plane_stride := 8, plane_size := 16 }
     { width := 2, height := 2 } (by decide) (by decide) (by decide) (by decide)).2.2.2.2.1⟩

/-- C3, as amended: `pull_sample` never compares the parsed geometry with
FRAME_WIDTH x FRAME_HEIGHT. It rejects (GST_FLOW_ERROR, nothing written)
exactly when no sample is pulled, the sample has no caps, or the caps do not
parse. A sample whose caps parse to any width w and height h with
w * h * 3 < 2 ^ 32 is accepted with GST_FLOW_OK, and when its buffer maps,
and its frame maps if the mapped size is not w * h * 3, the w * h * 3 bytes
of its own geometry are written. -/
theorem pull_sample_rejects_iff (heap : Nat → Byte) :
    pull_sample heap none = (some GstFlowReturn.GST_FLOW_ERROR, []) ∧
    ∀ sample : GstSample,
      ((pull_sample heap (some sample)).1 = some GstFlowReturn.GST_FLOW_ERROR ↔
        (sample.caps = none ∨ sample.caps = some { info := none })) ∧
      ((pull_sample heap (some sample)).1 = some GstFlowReturn.GST_FLOW_ERROR →
        written (pull_sample heap (some sample)).2 = []) ∧
      (∀ vinfo, sample.caps = some { info := some vinfo } →
        vinfo.width * vinfo.height * 3 < 2 ^ 32 →
        (pull_sample heap (some sample)).1 = some GstFlowReturn.GST_FLOW_OK ∧
        ∀ map, sample.map = some map →
          (map.size = vinfo.width * vinfo.height * 3 ∨ ∃ vframe, sample.frame = some vframe) →
          (written (pull_sample heap (some sample)).2).length =
            vinfo.width * vinfo.height * 3) := by
  refine ⟨rfl, ?_⟩
  intro sample
  refine ⟨?_, ?_, ?_⟩
  · rcases sample with ⟨caps, map, frame⟩
    rcases caps with _ | ⟨_ | vinfo⟩
    · simp [pull_sample]
    · simp [pull_sample, gst_video_info_from_caps]
    · rcases map with _ | map
      · simp [pull_sample, gst_video_info_from_caps]
      · simp only [pull_sample, gst_video_info_from_caps]
        split <;> simp
  · rcases sample with ⟨caps, map, frame⟩
    rcases caps with _ | ⟨_ | vinfo⟩
    · simp [pull_sample, written]
    · simp [pull_sample, gst_video_info_from_caps, written]
    · rcases map with _ | map
      · simp [pull_sample, gst_video_info_from_caps]
      · simp only [pull_sample, gst_video_info_from_caps]
        split <;> simp
  · intro vinfo hcaps hfit
    constructor
    · cases hm : sample.map with
      | none => simp [pull_sample, hcaps, hm, gst_video_info_from_caps]
      | some map =>
        rw [pull_sample_fst heap sample vinfo map hcaps hm,
          emit_frame_completes heap sample vinfo map hfit]
        rfl
    · intro map hmap hframe
      exact written_length_fit heap sample vinfo map hcaps hmap hframe hfit

/-- Witness of C3 on the dense 2 x 1 sample: its caps parse and
2 * 1 * 3 < 2 ^ 32, so it is accepted and its 6 bytes are written. -/
theorem pull_sample_rejects_iff_witness :
    (dense_sample.caps = some { info := some { width := 2, height := 1 } } ∧
      (2 : Nat) * 1 * 3 < 2 ^ 32) ∧
    (pull_sample (fun _ => 0) (some dense_sample)).1 = some GstFlowReturn.GST_FLOW_OK ∧
    (written (pull_sample (fun _ => 0) (some dense_sample)).2).length = 2 * 1 * 3 :=
  ⟨⟨rfl, by decide⟩,
   (((pull_sample_rejects_iff (fun _ => 0)).2 dense_sample).2.2 _ rfl (by decide)).1,
   (((pull_sample_rejects_iff (fun _ => 0)).2 dense_sample).2.2 _ rfl (by decide)).2
     { data := fun i => Fin.ofNat i, size := 6 } rfl (Or.inl rfl)⟩

/-- C3 as stated fails: a 320 x 240 sample, whose geometry is not
640 x 480, is accepted with GST_FLOW_OK and 230400 bytes are written. -/
theorem pull_sample_rejects_counterexample :
    qvga_sample.caps = some { info := some { width := 320, height := 240 } } ∧
    ((320 : Nat) ≠ FRAME_WIDTH ∧ (240 : Nat) ≠ FRAME_HEIGHT) ∧
    (pull_sample (fun _ => 0) (some qvga_sample)).1 = some GstFlowReturn.GST_FLOW_OK ∧
    (written (pull_sample (fun _ => 0) (some qvga_sample)).2).length = 230400 := by
  refine ⟨rfl, by decide, ?_, ?_⟩
  · rw [pull_sample_fst (fun _ => 0) qvga_sample _ _ rfl rfl,
      emit_frame_completes _ _ _ _ (by decide)]
    rfl
  · exact written_length_fit (fun _ => 0) qvga_sample { width := 320, height := 240 }
      { data := fun _ => 0, size := 230400 } rfl rfl (Or.inl rfl) (by decide)

end Controller

/-! ## The event dispatcher: `cb_message` and `main` -/

namespace Controller

/-- A message other than Error and End-of-stream leaves the data as it is. -/
theorem cb_message_other (data : CustomData) (msg : GstMessage)
    (h1 : msg ≠ GstMessage.GST_MESSAGE_ERROR) (h2 : msg ≠ GstMessage.GST_MESSAGE_EOS) :
    cb_message data msg = data := by
  cases msg <;> simp_all [cb_message]

/-- The main loop returns as soon as an Error or End-of-stream message is
among the messages, having been quit exactly once. -/
theorem preview_loop_returns (msgs : List GstMessage) (data : CustomData)
    (hrun : data.loop.is_running = true)
    (hmsg : ∃ m ∈ msgs, m = GstMessage.GST_MESSAGE_ERROR ∨ m = GstMessage.GST_MESSAGE_EOS) :
    ∃ data', g_main_loop_run data msgs = some data' ∧
      data'.loop.quits = data.loop.quits + 1 := by
  induction msgs generalizing data with
  | nil => simp at hmsg
  | cons msg rest ih =>
    by_cases h1 : msg = GstMessage.GST_MESSAGE_ERROR
    · subst h1
      exact ⟨cb_message data GstMessage.GST_MESSAGE_ERROR,
        by simp [g_main_loop_run, cb_message, g_main_loop_quit],
        by simp [cb_message, g_main_loop_quit]⟩
    · by_cases h2 : msg = GstMessage.GST_MESSAGE_EOS
      · subst h2
        exact ⟨cb_message data GstMessage.GST_MESSAGE_EOS,
          by simp [g_main_loop_run, cb_message, g_main_loop_quit],
          by simp [cb_message, g_main_loop_quit]⟩
      · have hrest : ∃ m ∈ rest,
            m = GstMessage.GST_MESSAGE_ERROR ∨ m = GstMessage.GST_MESSAGE_EOS := by
          obtain ⟨m, hm, hterm⟩ := hmsg
          rcases List.mem_cons.mp hm with rfl | hm
          · rcases hterm with h | h
            · exact absurd h h1
            · exact absurd h h2
          · exact ⟨m, hm, hterm⟩
        obtain ⟨data', hd, hq⟩ := ih data hrun hrest
        refine ⟨data', ?_, hq⟩
        simp only [g_main_loop_run, cb_message_other data msg h1 h2, hrun, if_true]
        exact hd

end Controller

namespace VideoInput

/-- A message other than Error and End-of-stream leaves the loop as it is. -/
theorem cb_message_loop (data : CustomData) (msg : GstMessage)
    (h1 : msg ≠ GstMessage.GST_MESSAGE_ERROR) (h2 : msg ≠ GstMessage.GST_MESSAGE_EOS) :
    (cb_message data msg).loop = data.loop := by
  cases msg <;> simp_all [cb_message] <;> (repeat' split) <;> rfl

/-- The main loop returns as soon as an Error or End-of-stream message is
among the messages, having been quit exactly once. -/
theorem playback_loop_returns (msgs : List GstMessage) (data : CustomData)
    (hrun : data.loop.is_running = true)
    (hmsg : ∃ m ∈ msgs, m = GstMessage.GST_MESSAGE_ERROR ∨ m = GstMessage.GST_MESSAGE_EOS) :
    ∃ data', g_main_loop_run data msgs = some data' ∧
      data'.loop.quits = data.loop.quits + 1 := by
  induction msgs generalizing data with
  | nil => simp at hmsg
  | cons msg rest ih =>
    by_cases h1 : msg = GstMessage.GST_MESSAGE_ERROR
    · subst h1
      exact ⟨cb_message data GstMessage.GST_MESSAGE_ERROR,
        by simp [g_main_loop_run, cb_message, g_main_loop_quit],
        by simp [cb_message, g_main_loop_quit]⟩
    · by_cases h2 : msg = GstMessage.GST_MESSAGE_EOS
      · subst h2
        exact ⟨cb_message data GstMessage.GST_MESSAGE_EOS,
          by simp [g_main_loop_run, cb_message, g_main_loop_quit],
          by simp [cb_message, g_main_loop_quit]⟩
      · have hrest : ∃ m ∈ rest,
            m = GstMessage.GST_MESSAGE_ERROR ∨ m = GstMessage.GST_MESSAGE_EOS := by
          obtain ⟨m, hm, hterm⟩ := hmsg
          rcases List.mem_cons.mp hm with rfl | hm
          · rcases hterm with h | h
            · exact absurd h h1
            · exact absurd h h2
          · exact ⟨m, hm, hterm⟩
        have hl := cb_message_loop data msg h1 h2
        obtain ⟨data', hd, hq⟩ := ih (cb_message data msg) (by rw [hl]; exact hrun) hrest
        refine ⟨data', ?_, by rw [hq, hl]⟩
        simp only [g_main_loop_run, hl, hrun, if_true]
        exact hd

end VideoInput

namespace VideoInput

/-- C4: with `is_live` false, a Buffering message below 100 percent takes a
playing playback pipeline to PAUSED and a following Buffering (100) takes it
back to PLAYING, and after any number of such pairs it is PLAYING; with
`is_live` true, a Buffering message changes nothing: no state, no request,
no other field of the data. -/
theorem cb_message_buffering :
    (∀ (data : CustomData) (percent : Int), data.is_live = false →
      data.playback_pipeline.state = GstState.GST_STATE_PLAYING → percent < 100 →
      (cb_message data (GstMessage.GST_MESSAGE_BUFFERING percent)).playback_pipeline.state =
        GstState.GST_STATE_PAUSED ∧
      (cb_message (cb_message data (GstMessage.GST_MESSAGE_BUFFERING percent))
        (GstMessage.GST_MESSAGE_BUFFERING 100)).playback_pipeline.state =
        GstState.GST_STATE_PLAYING) ∧
    (∀ (percents : List Int) (data : CustomData), data.is_live = false →
      data.playback_pipeline.state = GstState.GST_STATE_PLAYING →
      (∀ p ∈ percents, p < 100) →
      (dispatch data (buffering_pairs percents)).playback_pipeline.state =
        GstState.GST_STATE_PLAYING) ∧
    (∀ (data : CustomData) (percent : Int), data.is_live = true →
      cb_message data (GstMessage.GST_MESSAGE_BUFFERING percent) = data) := by
  refine ⟨?_, ?_, ?_⟩
  · intro data percent hlive _ hp
    simp [cb_message, hlive, hp, gst_element_set_state]
  · intro percents
    induction percents with
    | nil =>
      intro data _ hstate _
      simpa [dispatch, buffering_pairs] using hstate
    | cons p ps ih =>
      intro data hlive _ hps
      have hp : p < 100 := hps p (List.mem_cons_self _ _)
      have hstep : dispatch data (buffering_pairs (p :: ps)) =
          dispatch (cb_message (cb_message data (GstMessage.GST_MESSAGE_BUFFERING p))
            (GstMessage.GST_MESSAGE_BUFFERING 100)) (buffering_pairs ps) := by
        simp [dispatch, buffering_pairs]
      rw [hstep]
      apply ih
      · simp [cb_message, hlive, hp]
      · simp [cb_message, hlive, hp, gst_element_set_state]
      · intro q hq
        exact hps q (List.mem_cons_of_mem _ hq)
  · intro data percent hlive
    simp [cb_message, hlive]

/-- Witness of C4: three Buffering pairs (10, 55 and 99 percent) on a
playing, non-live playback pipeline. -/
theorem cb_message_buffering_witness :
    ((playing false).is_live = false ∧
      (playing false).playback_pipeline.state = GstState.GST_STATE_PLAYING ∧
      ∀ p ∈ [(10 : Int), 55, 99], p < 100) ∧
    (dispatch (playing false) (buffering_pairs [10, 55, 99])).playback_pipeline.state =
      GstState.GST_STATE_PLAYING :=
  ⟨⟨rfl, rfl, by decide⟩,
   cb_message_buffering.2.1 [10, 55, 99] (playing false) rfl rfl (by decide)⟩

/-- C5: for a GestureRecognized application message, when `action_id` is 1
a playing playback pipeline goes to PAUSED and a paused or ready one goes to
PLAYING; when `action_id` is not 1 the data is unchanged: same playback
state, no transition requested, the loop not quit. -/
theorem cb_message_gesture (data : CustomData) (s : GstStructure)
    (hname : s.name = "GestureRecognized") :
    (gst_structure_get s (-1) = 1 →
      (data.playback_pipeline.state = GstState.GST_STATE_PLAYING →
        (cb_message data (GstMessage.GST_MESSAGE_APPLICATION s)).playback_pipeline.state =
          GstState.GST_STATE_PAUSED) ∧
      (data.playback_pipeline.state = GstState.GST_STATE_PAUSED ∨
          data.playback_pipeline.state = GstState.GST_STATE_READY →
        (cb_message data (GstMessage.GST_MESSAGE_APPLICATION s)).playback_pipeline.state =
          GstState.GST_STATE_PLAYING)) ∧
    (gst_structure_get s (-1) ≠ 1 →
      cb_message data (GstMessage.GST_MESSAGE_APPLICATION s) = data ∧
      (cb_message data (GstMessage.GST_MESSAGE_APPLICATION s)).playback_pipeline.state =
        data.playback_pipeline.state ∧
      (cb_message data (GstMessage.GST_MESSAGE_APPLICATION s)).playback_pipeline.requests =
        data.playback_pipeline.requests ∧
      (cb_message data (GstMessage.GST_MESSAGE_APPLICATION s)).loop = data.loop) := by
  constructor
  · intro hid
    constructor
    · intro hstate
      simp [cb_message, hname, hid, gst_element_get_state, hstate, gst_element_set_state]
    · intro hstate
      rcases hstate with hstate | hstate <;>
        simp [cb_message, hname, hid, gst_element_get_state, hstate, gst_element_set_state]
  · intro hid
    have h : cb_message data (GstMessage.GST_MESSAGE_APPLICATION s) = data := by
      simp [cb_message, hname, hid]
    rw [h]
    exact ⟨rfl, rfl, rfl, rfl⟩

/-- Witness of C5: the gesture with action 1 pauses a playing playback
pipeline, and the gesture with action 2 changes nothing. -/
theorem cb_message_gesture_witness :
    (gesture 1).name = "GestureRecognized" ∧ gst_structure_get (gesture 1) (-1) = 1 ∧
    (playing false).playback_pipeline.state = GstState.GST_STATE_PLAYING ∧
    (cb_message (playing false)
      (GstMessage.GST_MESSAGE_APPLICATION (gesture 1))).playback_pipeline.state =
      GstState.GST_STATE_PAUSED :=
  ⟨rfl, rfl, rfl, ((cb_message_gesture (playing false) (gesture 1) rfl).1 rfl).1 rfl⟩

end VideoInput

/-- C6: in both programs an Error or End-of-stream message handed to
`cb_message` stops the loop with exactly one `g_main_loop_quit`; a run whose
start-up succeeds and whose bus delivers such a message leaves the main loop
after exactly one quit, and `main` then sets every managed pipeline to NULL
(its last state request) and returns 0. -/
theorem error_eos_quit_once_then_null :
    (∀ (data : Controller.CustomData) (msg : GstMessage),
      msg = GstMessage.GST_MESSAGE_ERROR ∨ msg = GstMessage.GST_MESSAGE_EOS →
      (Controller.cb_message data msg).loop =
        { is_running := false, quits := data.loop.quits + 1 }) ∧
    (∀ (data : VideoInput.CustomData) (msg : GstMessage),
      msg = GstMessage.GST_MESSAGE_ERROR ∨ msg = GstMessage.GST_MESSAGE_EOS →
      (VideoInput.cb_message data msg).loop =
        { is_running := false, quits := data.loop.quits + 1 }) ∧
    (∀ (data : Controller.CustomData) (msgs : List GstMessage),
      data.loop.is_running = true →
      (∃ m ∈ msgs, m = GstMessage.GST_MESSAGE_ERROR ∨ m = GstMessage.GST_MESSAGE_EOS) →
      ∃ data', Controller.g_main_loop_run data msgs = some data' ∧
        data'.loop.quits = data.loop.quits + 1) ∧
    (∀ (data : VideoInput.CustomData) (msgs : List GstMessage),
      data.loop.is_running = true →
      (∃ m ∈ msgs, m = GstMessage.GST_MESSAGE_ERROR ∨ m = GstMessage.GST_MESSAGE_EOS) →
      ∃ data', VideoInput.g_main_loop_run data msgs = some data' ∧
        data'.loop.quits = data.loop.quits + 1) ∧
    (∀ (env : Controller.Startup) (msgs : List GstMessage),
      env.app_sink_type = true → env.capture_launch = true → env.sink_found = true →
      env.capture_play ≠ GstStateChangeReturn.GST_STATE_CHANGE_FAILURE →
      (∃ m ∈ msgs, m = GstMessage.GST_MESSAGE_ERROR ∨ m = GstMessage.GST_MESSAGE_EOS) →
      ∃ capture, Controller.main env msgs =
          some { code := 0, playback_pipeline := none, capture_pipeline := some capture } ∧
        capture.state = GstState.GST_STATE_NULL ∧
        capture.requests.getLast? = some GstState.GST_STATE_NULL) ∧
    (∀ (env : VideoInput.Startup) (msgs : List GstMessage),
      2 ≤ env.argc → env.playback_launch = true → env.capture_launch = true →
      env.playback_play ≠ GstStateChangeReturn.GST_STATE_CHANGE_FAILURE →
      env.capture_play ≠ GstStateChangeReturn.GST_STATE_CHANGE_FAILURE →
      (∃ m ∈ msgs, m = GstMessage.GST_MESSAGE_ERROR ∨ m = GstMessage.GST_MESSAGE_EOS) →
      ∃ playback capture, VideoInput.main env msgs =
          some { code := 0, playback_pipeline := some playback,
                 capture_pipeline := some capture } ∧
        playback.state = GstState.GST_STATE_NULL ∧
        playback.requests.getLast? = some GstState.GST_STATE_NULL ∧
        capture.state = GstState.GST_STATE_NULL ∧
        capture.requests.getLast? = some GstState.GST_STATE_NULL) := by
  refine ⟨?_, ?_, ?_, ?_, ?_, ?_⟩
  · rintro data msg (rfl | rfl) <;> simp [Controller.cb_message, g_main_loop_quit]
  · rintro data msg (rfl | rfl) <;> simp [VideoInput.cb_message, g_main_loop_quit]
  · intro data msgs hrun hmsg
    exact Controller.preview_loop_returns msgs data hrun hmsg
  · intro data msgs hrun hmsg
    exact VideoInput.playback_loop_returns msgs data hrun hmsg
  · intro env msgs h1 h2 h3 h4 hmsg
    obtain ⟨data', hd, _⟩ := Controller.preview_loop_returns msgs
      { capture_pipeline := gst_element_set_state_ret GstElement.launched
          GstState.GST_STATE_PLAYING env.capture_play
        loop := { g_main_loop_new with is_running := true } } rfl hmsg
    refine ⟨gst_object_unref
      (gst_element_set_state data'.capture_pipeline GstState.GST_STATE_NULL), ?_, ?_, ?_⟩
    · simp [Controller.main, h1, h2, h3, h4, hd]
    · simp [gst_object_unref, gst_element_set_state]
    · simp [gst_object_unref, gst_element_set_state]
  · intro env msgs h1 h2 h3 h4 h5 hmsg
    obtain ⟨data', hd, _⟩ := VideoInput.playback_loop_returns msgs
      { is_live := decide (env.playback_play = GstStateChangeReturn.GST_STATE_CHANGE_NO_PREROLL)
        playback_pipeline := gst_element_set_state_ret GstElement.launched
          GstState.GST_STATE_PLAYING env.playback_play
        capture_pipeline := gst_element_set_state_ret GstElement.launched
          GstState.GST_STATE_PLAYING env.capture_play
        loop := { g_main_loop_new with is_running := true } } rfl hmsg
    refine ⟨gst_object_unref
      (gst_element_set_state data'.playback_pipeline GstState.GST_STATE_NULL),
      gst_object_unref
      (gst_element_set_state data'.capture_pipeline GstState.GST_STATE_NULL), ?_, ?_, ?_, ?_, ?_⟩
    · have h1' : ¬ env.argc < 2 := by omega
      simp [VideoInput.main, h1', h2, h3, h4, h5, hd]
    all_goals simp [gst_object_unref, gst_element_set_state]

/-- Witness of C6: the playback program, started successfully, on a bus that
delivers a Buffering message and then an Error message. -/
theorem error_eos_quit_once_then_null_witness :
    (2 ≤ VideoInput.started.argc ∧ VideoInput.started.playback_launch = true ∧
      VideoInput.started.capture_launch = true ∧
      VideoInput.started.playback_play ≠ GstStateChangeReturn.GST_STATE_CHANGE_FAILURE ∧
      VideoInput.started.capture_play ≠ GstStateChangeReturn.GST_STATE_CHANGE_FAILURE) ∧
    ∃ playback capture,
      VideoInput.main VideoInput.started
          [GstMessage.GST_MESSAGE_BUFFERING 40, GstMessage.GST_MESSAGE_ERROR] =
        some { code := 0, playback_pipeline := some playback,
               capture_pipeline := some capture } ∧
      playback.state = GstState.GST_STATE_NULL ∧
      playback.requests.getLast? = some GstState.GST_STATE_NULL ∧
      capture.state = GstState.GST_STATE_NULL ∧
      capture.requests.getLast? = some GstState.GST_STATE_NULL :=
  ⟨by decide,
   error_eos_quit_once_then_null.2.2.2.2.2 VideoInput.started
     [GstMessage.GST_MESSAGE_BUFFERING 40, GstMessage.GST_MESSAGE_ERROR]
     (by decide) rfl rfl (by decide) (by decide)
     ⟨GstMessage.GST_MESSAGE_ERROR, by simp, Or.inl rfl⟩⟩

/-! ## Teardown: the steps of a pipeline down to NULL -/

namespace Controller

end Controller

namespace VideoInput

end VideoInput

/-- The run of the witness above, evaluated: the requests of the program are
PLAYING and NULL, the steps of the pipeline go up to PLAYING and down through
PAUSED and READY to NULL. -/
theorem preview_eos_run :
    Controller.main Controller.started
        [GstMessage.GST_MESSAGE_STATE_CHANGED GstState.GST_STATE_PLAYING,
         GstMessage.GST_MESSAGE_EOS] =
      some { code := 0, playback_pipeline := none,
             capture_pipeline := some
               { state := GstState.GST_STATE_NULL,
                 requests := [GstState.GST_STATE_PLAYING, GstState.GST_STATE_NULL],
                 transitions :=
                   [(GstState.GST_STATE_NULL, GstState.GST_STATE_READY),
                    (GstState.GST_STATE_READY, GstState.GST_STATE_PAUSED),
                    (GstState.GST_STATE_PAUSED, GstState.GST_STATE_PLAYING),
                    (GstState.GST_STATE_PLAYING, GstState.GST_STATE_PAUSED),
                    (GstState.GST_STATE_PAUSED, GstState.GST_STATE_READY),
                    (GstState.GST_STATE_READY, GstState.GST_STATE_NULL)],
                 unrefs := 1 } } := by
  decide
